import Mathlib

/-!
Verification of the wealth-health-self dashboard (`src/app.py`).

The program is a single script: a form appends one row to a CSV file
(`to_csv(mode="a", header=not DATA_PATH.exists())`), the full history is
re-read with `pd.read_csv` (missing file → empty frame, missing `Category`
column → backfilled, `Time` parsed with `errors="coerce"`), and a few
aggregates are computed over the loaded rows.

Embedding choices:
  * A CSV cell is modelled as a typed `Cell` (string / integer / timestamp
    rendering): pandas' `to_csv` followed by `read_csv` with type inference
    round-trips these values, and an unparsable timestamp is any non-`stamp`
    cell (`pd.to_datetime(..., errors="coerce")` yields `NaT` there).
  * The storage file is `Option CsvFile`: `none` is "file does not exist".
  * Timestamps are `Nat` seconds; `.dt.normalize()` truncates to midnight,
    so two timestamps normalize equal iff they fall on the same day number.
  * Means are rationals (`ℚ`); the script only divides when the frame is
    non-empty, mirrored by the `isEmpty` branch taken from lines 75–87.
-/

namespace WHS

/-- One CSV cell, as the typed value pandas round-trips through the file:
a free-text field, an integer score, or a timestamp rendering (`stamp`).
A `Time` cell that is not a `stamp` models an unparsable timestamp string. -/
inductive Cell where
  | str : String → Cell
  | int : Int → Cell
  | stamp : Nat → Cell
deriving DecidableEq, Repr

/-- The CSV file: one header line of column names, then data rows. -/
structure CsvFile where
  header : List String
  rows : List (List Cell)
deriving DecidableEq, Repr

/-- The state of `DATA_PATH`: `none` when the file does not exist yet. -/
abbrev FileState := Option CsvFile

/-- The header written on first append (app.py lines 42–55) and used for the
empty frame substituted on `FileNotFoundError` (lines 61–64). -/
def csvHeader : List String :=
  ["Decision", "Category", "Wealth", "Health", "Self", "Time"]

/-- One form submission: the five user-supplied values (lines 17–21). -/
structure FormInput where
  decision : String
  category : String
  wealth : Int
  health : Int
  self : Int
deriving DecidableEq, Repr

/-- The row `df_new` built from a submission (lines 42–49): the five form
values plus `pd.Timestamp.now()`, which the store assigns. -/
def newRow (inp : FormInput) (now : Nat) : List Cell :=
  [.str inp.decision, .str inp.category, .int inp.wealth, .int inp.health,
   .int inp.self, .stamp now]

/-- `df_new.to_csv(DATA_PATH, mode="a", index=False, header=not
DATA_PATH.exists())` (lines 50–55): append one row; the header line is
written only when the file does not exist yet. -/
def append (file : FileState) (inp : FormInput) (now : Nat) : FileState :=
  match file with
  | none => some { header := csvHeader, rows := [newRow inp now] }
  | some f => some { header := f.header, rows := f.rows ++ [newRow inp now] }

/-- One loaded record after normalization: the five fields plus the parsed
timestamp, where `none` is pandas' `NaT` (the invalid marker). -/
structure DecisionRecord where
  decision : String
  category : String
  wealth : Int
  health : Int
  self : Int
  time : Option Nat
deriving DecidableEq, Repr

/-- Read a cell as text (pandas renders non-string cells when displayed as
a string column). -/
def cellStr : Cell → String
  | .str s => s
  | .int i => toString i
  | .stamp n => toString n

/-- Read a cell as an integer score. A non-numeric cell defaults to 0; this
case is unreachable for files produced by `append`, whose score cells are
always `.int` (pandas would otherwise infer a non-numeric column). -/
def cellInt : Cell → Int
  | .int i => i
  | .stamp n => (n : Int)
  | .str _ => 0

/-- `pd.to_datetime(df["Time"], errors="coerce")` (line 72) on one cell:
a valid timestamp rendering parses, anything else coerces to `NaT`. -/
def cellTime : Cell → Option Nat
  | .stamp n => some n
  | _ => none

/-- Column access `row[name]`: position of `name` in the header, then the
cell at that position. -/
def getCell (header : List String) (row : List Cell) (name : String) :
    Option Cell :=
  (header.indexOf? name).bind fun i => row.get? i

/-- Normalize one stored row into a record: column lookup by header, the
`Category` backfill of lines 67–68 (`if "Category" not in df.columns:
df["Category"] = "Uncategorized"`), and timestamp coercion of line 72. -/
def rowToRecord (header : List String) (row : List Cell) : DecisionRecord :=
  { decision := ((getCell header row "Decision").map cellStr).getD ""
    category :=
      if "Category" ∈ header then
        ((getCell header row "Category").map cellStr).getD ""
      else "Uncategorized"
    wealth := ((getCell header row "Wealth").map cellInt).getD 0
    health := ((getCell header row "Health").map cellInt).getD 0
    self := ((getCell header row "Self").map cellInt).getD 0
    time := (getCell header row "Time").bind cellTime }

/-- `pd.read_csv(DATA_PATH)` with the `FileNotFoundError` handler
(lines 59–64) followed by the load-time normalization (lines 67–72):
a missing file yields the empty sequence, otherwise every stored row
loads as one record. -/
def loadAll (file : FileState) : List DecisionRecord :=
  match file with
  | none => []
  | some f => f.rows.map (rowToRecord f.header)

/-- Day number of a timestamp: `.dt.normalize()` truncates to midnight, so
two timestamps have equal normalizations iff their day numbers agree. -/
def dayOf (t : Nat) : Nat := t / 86400

/-- The row predicate of `df[df["Time"].dt.normalize() == today]` (line 77):
`NaT == today` is false in pandas, so invalid timestamps never match. -/
def isToday (now : Nat) (r : DecisionRecord) : Bool :=
  match r.time with
  | some t => dayOf t == dayOf now
  | none => false

/-- `decisions_today` (lines 75–78, 85): `len(df_today)` on a non-empty
frame, 0 on an empty one. -/
def decisions_today (df : List DecisionRecord) (now : Nat) : Nat :=
  if df.isEmpty then 0 else (df.filter (isToday now)).length

/-- `avg_wealth = df["Wealth"].mean()` (lines 79, 86), 0 on an empty frame. -/
def avg_wealth (df : List DecisionRecord) : ℚ :=
  if df.isEmpty then 0
  else (df.map fun r => (r.wealth : ℚ)).sum / df.length

/-- Per-record count of `sum(val < 0 for val in [r.Wealth, r.Health,
r.Self])` (line 81). -/
def negFlagCount (r : DecisionRecord) : Nat :=
  ([r.wealth, r.health, r.self].filter fun v => v < 0).length

/-- `avg_neg_flags` (lines 80–83, 87): mean of the per-record negative-flag
counts, 0 on an empty frame. -/
def avg_neg_flags (df : List DecisionRecord) : ℚ :=
  if df.isEmpty then 0
  else (df.map fun r => (negFlagCount r : ℚ)).sum / df.length

/-- The three (sector name, new score) pairs of lines 28 and 33. -/
def sectorVals (w h s : Int) : List (String × Int) :=
  [("Wealth", w), ("Health", h), ("Self", s)]

/-- `negative = [name for name, val in ... if val < 0]` (lines 26–30). -/
def negative (w h s : Int) : List String :=
  ((sectorVals w h s).filter fun p => p.2 < 0).map Prod.fst

/-- `zero = [name for name, val in ... if val == 0]` (lines 31–35). -/
def zero (w h s : Int) : List String :=
  ((sectorVals w h s).filter fun p => p.2 == 0).map Prod.fst

/-- What the submission branch displays about impact direction. -/
inductive ImpactMsg where
  | errorMsg : String → ImpactMsg
  | warningMsg : String → ImpactMsg
  | silent : ImpactMsg
deriving DecidableEq, Repr

/-- `if negative: st.error(...) elif zero: st.warning(...)` (lines 36–39). -/
def impactMessage (w h s : Int) : ImpactMsg :=
  if negative w h s ≠ [] then
    .errorMsg ("Negative impact on: " ++ String.intercalate ", " (negative w h s))
  else if zero w h s ≠ [] then
    .warningMsg ("No benefit to: " ++ String.intercalate ", " (zero w h s))
  else .silent

/-- `df2 = df[df["Decision"].isin(sel)]` (line 106). -/
def filterByDecisionLabels (df : List DecisionRecord) (sel : List String) :
    List DecisionRecord :=
  df.filter fun r => sel.contains r.decision

/-- `df["Decision"].unique().tolist()` (lines 103–104), the multiselect's
option list and default selection; only the underlying set of labels
matters for the claims, so duplicates are removed with `dedup`. -/
def uniqueDecisions (df : List DecisionRecord) : List String :=
  (df.map DecisionRecord.decision).dedup

/-- What the chart section renders (lines 109–146). -/
inductive ChartStage where
  | charts : ChartStage
  | info : String → ChartStage
deriving DecidableEq, Repr

/-- `if not df2.empty: ...plots... else: st.info("No decisions to show.")`
(lines 109, 145–146). -/
def chartStage (df2 : List DecisionRecord) : ChartStage :=
  if df2.isEmpty then .info "No decisions to show." else .charts

/-- Header invariant of the storage file: either it does not exist yet, or
its first line is the canonical header. -/
def goodFile : FileState → Prop
  | none => True
  | some f => f.header = csvHeader

/-- The record an append-produced row loads back as: the six columns of
`csvHeader` select exactly the six cells of `newRow` in order. -/
theorem rowToRecord_newRow (inp : FormInput) (now : Nat) :
    rowToRecord csvHeader (newRow inp now) =
      ⟨inp.decision, inp.category, inp.wealth, inp.health, inp.self, some now⟩ :=
  rfl

/-- C1: appending a submitted record and reloading yields a sequence whose
last element carries the submission's decision, category, wealth, health and
self values, with the timestamp assigned by the store at append time. -/
theorem append_then_loadAll_last (file : FileState) (inp : FormInput)
    (now : Nat) (hfile : goodFile file) :
    ∃ r, (loadAll (append file inp now)).getLast? = some r ∧
      r.decision = inp.decision ∧ r.category = inp.category ∧
      r.wealth = inp.wealth ∧ r.health = inp.health ∧
      r.self = inp.self ∧ r.time = some now := by
  refine ⟨⟨inp.decision, inp.category, inp.wealth, inp.health, inp.self,
    some now⟩, ?_, rfl, rfl, rfl, rfl, rfl, rfl⟩
  match file with
  | none => rfl
  | some f =>
      have hf : f.header = csvHeader := hfile
      simp [append, loadAll, hf, List.getLast?_concat, rowToRecord_newRow]

/-- Witness for C1: appending to a store that does not exist yet. -/
theorem append_then_loadAll_last_witness :
    ∃ r, (loadAll (append none ⟨"Buy index fund", "Finance", 20, 0, -10⟩
        100)).getLast? = some r ∧
      r.decision = "Buy index fund" ∧ r.category = "Finance" ∧
      r.wealth = 20 ∧ r.health = 0 ∧ r.self = -10 ∧ r.time = some 100 :=
  append_then_loadAll_last none ⟨"Buy index fund", "Finance", 20, 0, -10⟩
    100 trivial

/-- C2: the classification puts exactly the sectors with value < 0 into
`negative` and exactly those with value = 0 into `zero` (positive values
unflagged); the error message is shown iff `negative` is non-empty and the
zero warning iff `negative` is empty and `zero` non-empty; concretely,
scores (20, 0, -10) give negative = ["Self"], zero = ["Health"] and only
the error-level message. -/
theorem impact_classification (w h s : Int) :
    ("Wealth" ∈ negative w h s ↔ w < 0) ∧
    ("Health" ∈ negative w h s ↔ h < 0) ∧
    ("Self" ∈ negative w h s ↔ s < 0) ∧
    ("Wealth" ∈ zero w h s ↔ w = 0) ∧
    ("Health" ∈ zero w h s ↔ h = 0) ∧
    ("Self" ∈ zero w h s ↔ s = 0) ∧
    ((∃ m, impactMessage w h s = .errorMsg m) ↔ negative w h s ≠ []) ∧
    ((∃ m, impactMessage w h s = .warningMsg m) ↔
      negative w h s = [] ∧ zero w h s ≠ []) ∧
    negative 20 0 (-10) = ["Self"] ∧
    zero 20 0 (-10) = ["Health"] ∧
    impactMessage 20 0 (-10) = .errorMsg "Negative impact on: Self" := by
  refine ⟨?_, ?_, ?_, ?_, ?_, ?_, ?_, ?_, by decide, by decide, by decide⟩
  · simp only [negative, sectorVals, List.filter_cons, List.filter_nil,
      List.mem_map]
    split_ifs <;> simp_all
  · simp only [negative, sectorVals, List.filter_cons, List.filter_nil,
      List.mem_map]
    split_ifs <;> simp_all
  · simp only [negative, sectorVals, List.filter_cons, List.filter_nil,
      List.mem_map]
    split_ifs <;> simp_all
  · simp only [zero, sectorVals, List.filter_cons, List.filter_nil,
      List.mem_map]
    split_ifs <;> simp_all
  · simp only [zero, sectorVals, List.filter_cons, List.filter_nil,
      List.mem_map]
    split_ifs <;> simp_all
  · simp only [zero, sectorVals, List.filter_cons, List.filter_nil,
      List.mem_map]
    split_ifs <;> simp_all
  · unfold impactMessage
    split
    · next hne => simpa using hne
    · next hne =>
        split <;> simp_all
  · unfold impactMessage
    split
    · next hne => simp_all
    · next hne =>
        split <;> simp_all

/-- C3: on a loaded sequence, `decisions_today` counts exactly the records
with a validly parsed timestamp whose day equals today's; records whose
timestamp coerced to the invalid marker are not counted but are still
loaded (one record per stored row). -/
theorem decisions_today_spec (f : CsvFile) (now : Nat) :
    decisions_today (loadAll (some f)) now =
      ((loadAll (some f)).filter
        (fun r => r.time.map dayOf == some (dayOf now))).length ∧
    (loadAll (some f)).length = f.rows.length := by
  constructor
  · have hfun : isToday now =
        fun r : DecisionRecord => r.time.map dayOf == some (dayOf now) := by
      funext r
      cases hr : r.time <;> simp [isToday, hr]
    unfold decisions_today
    rw [hfun]
    cases hl : loadAll (some f) <;> simp
  · simp [loadAll]

/-- C4: on the empty record sequence all three summary metrics are zero. -/
theorem empty_summary :
    avg_wealth [] = 0 ∧ avg_neg_flags [] = 0 ∧
      ∀ now, decisions_today [] now = 0 :=
  ⟨rfl, rfl, fun _ => rfl⟩

/-- Per-record negative-flag count as the spec words it: one for each of
the three sectors whose value is strictly negative. -/
def negFlagCountSpec (r : DecisionRecord) : ℚ :=
  (if r.wealth < 0 then 1 else 0) + (if r.health < 0 then 1 else 0) +
    (if r.self < 0 then 1 else 0)

/-- C5: on a non-empty sequence, `avg_neg_flags` is the arithmetic mean of
the per-record count of strictly negative sectors, and lies in [0, 3]. -/
theorem avg_neg_flags_spec (df : List DecisionRecord) (h : df ≠ []) :
    avg_neg_flags df = (df.map negFlagCountSpec).sum / df.length ∧
    0 ≤ avg_neg_flags df ∧ avg_neg_flags df ≤ 3 := by
  have hcount : ∀ r : DecisionRecord, (negFlagCount r : ℚ) = negFlagCountSpec r := by
    intro r
    unfold negFlagCount negFlagCountSpec
    rcases lt_or_le r.wealth 0 with hw | hw <;>
      rcases lt_or_le r.health 0 with hh | hh <;>
        rcases lt_or_le r.self 0 with hs | hs <;>
          simp [List.filter_cons, hw, hh, hs, not_lt.mpr, le_of_lt] <;> norm_num
  have hlen : 0 < (df.length : ℚ) := by
    exact_mod_cast List.length_pos.mpr h
  have hEmpty : df.isEmpty = false := by
    cases df with
    | nil => exact absurd rfl h
    | cons a l => rfl
  have havg : avg_neg_flags df =
      (df.map fun r => (negFlagCount r : ℚ)).sum / df.length := by
    unfold avg_neg_flags
    rw [hEmpty]
    rfl
  have hmap : (df.map fun r => (negFlagCount r : ℚ)) = df.map negFlagCountSpec :=
    List.map_congr_left fun r _ => hcount r
  have hmean : avg_neg_flags df = (df.map negFlagCountSpec).sum / df.length := by
    rw [havg, hmap]
  refine ⟨hmean, ?_, ?_⟩
  · rw [havg]
    apply div_nonneg _ (le_of_lt hlen)
    apply List.sum_nonneg
    intro x hx
    obtain ⟨r, _, rfl⟩ := List.mem_map.mp hx
    positivity
  · rw [havg, div_le_iff₀ hlen]
    have hbound : ∀ x ∈ df.map fun r => (negFlagCount r : ℚ), x ≤ 3 := by
      intro x hx
      obtain ⟨r, _, rfl⟩ := List.mem_map.mp hx
      have : negFlagCount r ≤ 3 := by
        unfold negFlagCount
        calc ([r.wealth, r.health, r.self].filter fun v => v < 0).length
            ≤ [r.wealth, r.health, r.self].length := List.length_filter_le _ _
          _ = 3 := rfl
      exact_mod_cast this
    calc (df.map fun r => (negFlagCount r : ℚ)).sum
        ≤ (df.map fun r => (negFlagCount r : ℚ)).length • (3 : ℚ) :=
          List.sum_le_card_nsmul _ _ hbound
      _ = 3 * df.length := by
          simp [List.length_map]
          ring

/-- Witness for C5 on a one-record sequence with a single negative sector. -/
theorem avg_neg_flags_spec_witness :
    avg_neg_flags [⟨"d", "Work", -1, 2, 0, none⟩] =
      ([(⟨"d", "Work", -1, 2, 0, none⟩ : DecisionRecord)].map
        negFlagCountSpec).sum /
        (([(⟨"d", "Work", -1, 2, 0, none⟩ : DecisionRecord)]).length) ∧
    0 ≤ avg_neg_flags [⟨"d", "Work", -1, 2, 0, none⟩] ∧
    avg_neg_flags [⟨"d", "Work", -1, 2, 0, none⟩] ≤ 3 :=
  avg_neg_flags_spec [⟨"d", "Work", -1, 2, 0, none⟩] (List.cons_ne_nil _ _)

/-- C6: when the storage file does not exist, loading yields the empty
record sequence instead of an error. -/
theorem loadAll_missing_file : loadAll none = [] := rfl

/-- C7: every row of a stored file that lacks a `Category` column loads
with category `"Uncategorized"`. -/
theorem legacy_rows_backfill_category (f : CsvFile)
    (h : "Category" ∉ f.header) :
    ∀ r ∈ loadAll (some f), r.category = "Uncategorized" := by
  intro r hr
  simp only [loadAll, List.mem_map] at hr
  obtain ⟨row, _, rfl⟩ := hr
  simp [rowToRecord, h]

/-- Witness for C7: a legacy five-column file with one row. -/
theorem legacy_rows_backfill_category_witness :
    (rowToRecord ["Decision", "Wealth", "Health", "Self", "Time"]
      [.str "old", .int 1, .int 2, .int 3, .stamp 7]).category =
      "Uncategorized" :=
  legacy_rows_backfill_category
    ⟨["Decision", "Wealth", "Health", "Self", "Time"],
      [[.str "old", .int 1, .int 2, .int 3, .stamp 7]]⟩
    (by decide) _ (by simp [loadAll])

/-- C8: the decision filter returns exactly the order-preserving
subsequence of records whose decision is among the selected labels; when
nothing matches, the result is empty and the chart stage reports the
informational "No decisions to show." state. -/
theorem filterByDecisionLabels_spec (df : List DecisionRecord)
    (sel : List String) :
    List.Sublist (filterByDecisionLabels df sel) df ∧
    (∀ r, r ∈ filterByDecisionLabels df sel ↔ r ∈ df ∧ r.decision ∈ sel) ∧
    ((∀ r ∈ df, r.decision ∉ sel) →
      filterByDecisionLabels df sel = [] ∧
      chartStage (filterByDecisionLabels df sel) =
        .info "No decisions to show.") := by
  refine ⟨List.filter_sublist _, ?_, ?_⟩
  · intro r
    simp [filterByDecisionLabels, List.mem_filter]
  · intro hnone
    have hnil : filterByDecisionLabels df sel = [] := by
      unfold filterByDecisionLabels
      rw [List.filter_eq_nil_iff]
      intro r hr
      simpa using hnone r hr
    exact ⟨hnil, by rw [hnil]; rfl⟩

/-- Witness for C8: the selection {"X"} matches no record. -/
theorem filterByDecisionLabels_spec_witness :
    filterByDecisionLabels
      [⟨"Buy index fund", "Finance", 20, 0, -10, some 0⟩] ["X"] = [] ∧
    chartStage (filterByDecisionLabels
      [⟨"Buy index fund", "Finance", 20, 0, -10, some 0⟩] ["X"]) =
      .info "No decisions to show." :=
  (filterByDecisionLabels_spec
    [⟨"Buy index fund", "Finance", 20, 0, -10, some 0⟩] ["X"]).2.2
    (by decide)

/-- C9: appending preserves the single-header invariant: the header line is
written exactly when the append creates the file, and an append to an
existing file extends its rows without touching its header. -/
theorem append_header_once (file : FileState) (inp : FormInput) (now : Nat)
    (h : goodFile file) :
    goodFile (append file inp now) ∧
    (file = none →
      append file inp now = some ⟨csvHeader, [newRow inp now]⟩) ∧
    (∀ f, file = some f →
      append file inp now = some ⟨f.header, f.rows ++ [newRow inp now]⟩) := by
  match file with
  | none =>
      exact ⟨rfl, fun _ => rfl, fun f hf => Option.noConfusion hf⟩
  | some f =>
      refine ⟨h, fun hf => Option.noConfusion hf, fun f' hf' => ?_⟩
      cases hf'
      rfl

/-- Witness for C9: the append that creates the file writes the header. -/
theorem append_header_once_witness :
    goodFile (append none ⟨"d", "Work", 1, 2, 3⟩ 9) ∧
    (none = (none : FileState) →
      append none ⟨"d", "Work", 1, 2, 3⟩ 9 =
        some ⟨csvHeader, [newRow ⟨"d", "Work", 1, 2, 3⟩ 9]⟩) ∧
    (∀ f, (none : FileState) = some f →
      append none ⟨"d", "Work", 1, 2, 3⟩ 9 =
        some ⟨f.header, f.rows ++ [newRow ⟨"d", "Work", 1, 2, 3⟩ 9]⟩) :=
  append_header_once none ⟨"d", "Work", 1, 2, 3⟩ 9 trivial

/-- C10: filtering by the set of all decision labels occurring in the
sequence (the multiselect's default) returns the whole sequence. -/
theorem filter_default_selection (df : List DecisionRecord) :
    filterByDecisionLabels df (uniqueDecisions df) = df := by
  unfold filterByDecisionLabels
  rw [List.filter_eq_self]
  intro r hr
  simp [uniqueDecisions, List.mem_dedup]
  exact ⟨r, hr, rfl⟩

end WHS
